import Mathlib

/-!
Shallow embedding of the retry scheduler implemented by the useRetry hook
(src/unnamed/part_005, lines 92-303).  The hook drives sequential attempts
of an asynchronous operation with exponential backoff and jitter.

Modelling choices:
* React state setters and mutable refs become fields of an explicit
  RetryState record threaded through the interpreter.
* The operation asyncFn is a function from the attempt number (1-based) to
  an Except value: .ok is a fulfilled promise, .error covers both a
  rejected promise and a synchronous throw (inside a try around an await
  these are indistinguishable).
* Math.random() is a stream of rational draws, one per failed attempt.
* User callbacks (shouldRetry, onSuccess, onFailure) may themselves throw,
  so they return Except values; a throwing callback is .error.
* abort() called while the scheduler waits between attempts is modelled by
  the schedule abortDuringWait : the abort runs exactly as in the source
  (flag set, clearTimeout, isRetrying and delayMs cleared).  Because the
  source clears the timeout without resolving the wait promise, the
  suspended attempt loop never resumes and the promise returned by
  execute never settles: the interpreter reports this as ExecResult.pending.
* Delays are rationals; delay values never influence control flow.
-/

/-- Configuration of the useRetry hook (UseRetryOptions with its defaults
resolved by the caller of the model). -/
structure RetryConfig (ε T : Type) where
  maxAttempts : Nat
  initialDelayMs : ℚ
  maxDelayMs : ℚ
  backoffMultiplier : ℚ
  jitter : ℚ
  shouldRetry : ε → Nat → Except ε Bool
  onSuccess : T → Except ε Unit
  onFailure : ε → Nat → Except ε Unit
  autoStart : Bool

/-- The mutable state of one scheduler instance: the six useState cells and
the three refs of the hook.  timeoutRef is true while a timer is pending. -/
structure RetryState (ε : Type) where
  attempt : Nat
  isRetrying : Bool
  isSuccess : Bool
  isFailed : Bool
  delayMs : ℚ
  error : Option ε
  abortRef : Bool
  timeoutRef : Bool
  attemptRef : Nat
deriving DecidableEq

/-- Observable events of one run: operation invocations and callback calls.
A callback call is logged when the callback is invoked, whether or not it
throws. -/
inductive Event (ε T : Type) where
  | opCall (attempt : Nat)
  | onSuccessCall (result : T)
  | onFailureCall (e : ε) (attempts : Nat)
deriving DecidableEq

/-- How the promise returned by execute settles: fulfilled with a value
(null is none), rejected with a thrown value, or never settles at all. -/
inductive ExecResult (ε T : Type) where
  | resolved (v : Option T)
  | rejected (e : ε)
  | pending
deriving DecidableEq

/-- The initial values of the useState cells and refs of the hook. -/
def initState {ε : Type} : RetryState ε :=
  { attempt := 0, isRetrying := false, isSuccess := false, isFailed := false,
    delayMs := 0, error := none, abortRef := false, timeoutRef := false,
    attemptRef := 0 }

/-- calculateDelay of the hook (part_005 lines 187-197): exponential
backoff capped at maxDelayMs with symmetric jitter; random is the
Math.random() draw in [0,1). -/
def calculateDelay {ε T : Type} (cfg : RetryConfig ε T) (random : ℚ)
    (currentAttempt : Nat) : ℚ :=
  let baseDelay := cfg.initialDelayMs * cfg.backoffMultiplier ^ (currentAttempt - 1)
  let cappedDelay := min baseDelay cfg.maxDelayMs
  let jitterAmount := cappedDelay * cfg.jitter
  let minDelay := cappedDelay - jitterAmount
  let maxDelay := cappedDelay + jitterAmount
  minDelay + random * (maxDelay - minDelay)

/-- runAttempt of the hook (part_005 lines 210-251).  asyncFn gives the
outcome of each invocation, random the Math.random() draw used for the wait
after a given attempt, and abortDuringWait tells whether abort() is called
while the scheduler waits after that attempt.  Returns how the promise
settles, the final state, and the events of this call in order. -/
def runAttempt {ε T : Type} (cfg : RetryConfig ε T) (asyncFn : Nat → Except ε T)
    (random : Nat → ℚ) (abortDuringWait : Nat → Bool)
    (currentAttempt : Nat) (s : RetryState ε) :
    ExecResult ε T × RetryState ε × List (Event ε T) :=
  if s.abortRef then (.resolved none, s, [])
  else
    -- the try block: await asyncFn(), then setIsSuccess and onSuccess
    let tryOutcome : Except ε (Option T) × RetryState ε × List (Event ε T) :=
      match asyncFn currentAttempt with
      | .ok result =>
        let s1 := { s with isSuccess := true }
        match cfg.onSuccess result with
        | .ok _ => (.ok (some result), s1,
            [.opCall currentAttempt, .onSuccessCall result])
        | .error e => (.error e, s1,
            [.opCall currentAttempt, .onSuccessCall result])
      | .error e => (.error e, s, [.opCall currentAttempt])
    match tryOutcome with
    | (.ok v, s1, evs1) => (.resolved v, s1, evs1)
    | (.error e, s1, evs1) =>
      -- the catch block, with the short-circuit of line 221
      if _h : currentAttempt ≥ cfg.maxAttempts then
        let s2 := { s1 with isFailed := true, error := some e }
        match cfg.onFailure e currentAttempt with
        | .ok _ => (.resolved none, s2, evs1 ++ [.onFailureCall e currentAttempt])
        | .error ex => (.rejected ex, s2, evs1 ++ [.onFailureCall e currentAttempt])
      else
        match cfg.shouldRetry e currentAttempt with
        | .error ex => (.rejected ex, s1, evs1)
        | .ok b =>
          if b then
            let delay := calculateDelay cfg (random currentAttempt) currentAttempt
            let s2 := { s1 with delayMs := delay, isRetrying := true, timeoutRef := true }
            if abortDuringWait currentAttempt then
              -- abort() during the wait: flag set, clearTimeout, isRetrying
              -- and delayMs cleared; the wait promise is never resolved, so
              -- the loop never resumes and the promise stays pending.
              (.pending,
               { s2 with abortRef := true, timeoutRef := false,
                         isRetrying := false, delayMs := 0 }, evs1)
            else
              -- the timer fires and the wait resolves
              let s3 := { s2 with timeoutRef := false }
              if s3.abortRef then (.resolved none, s3, evs1)
              else
                let nextAttempt := currentAttempt + 1
                let s4 := { s3 with attempt := nextAttempt, attemptRef := nextAttempt,
                                    isRetrying := false, delayMs := 0 }
                let rest := runAttempt cfg asyncFn random abortDuringWait nextAttempt s4
                (rest.1, rest.2.1, evs1 ++ rest.2.2)
          else
            let s2 := { s1 with isFailed := true, error := some e }
            match cfg.onFailure e currentAttempt with
            | .ok _ => (.resolved none, s2, evs1 ++ [.onFailureCall e currentAttempt])
            | .error ex => (.rejected ex, s2, evs1 ++ [.onFailureCall e currentAttempt])
termination_by cfg.maxAttempts - currentAttempt
decreasing_by omega

/-- The synchronous re-initialisation performed by execute (part_005 lines
202-208) before the first attempt starts.  This is also exactly the state
of the scheduler while the first attempt of a sequence is in flight, since
runAttempt writes nothing before awaiting asyncFn. -/
def executeInit {ε : Type} (s : RetryState ε) : RetryState ε :=
  { s with abortRef := false, attemptRef := 1, attempt := 1,
           isSuccess := false, isFailed := false, error := none, delayMs := 0 }

/-- execute of the hook (part_005 lines 199-254): the isRetrying guard,
the state re-initialisation, then the attempt loop starting at attempt 1. -/
def execute {ε T : Type} (cfg : RetryConfig ε T) (asyncFn : Nat → Except ε T)
    (random : Nat → ℚ) (abortDuringWait : Nat → Bool) (s : RetryState ε) :
    ExecResult ε T × RetryState ε × List (Event ε T) :=
  if s.isRetrying then (.resolved none, s, [])
  else runAttempt cfg asyncFn random abortDuringWait 1 (executeInit s)

/-- abort of the hook (part_005 lines 256-264): set the abort flag, clear
any pending timeout, clear isRetrying and delayMs. -/
def abort {ε : Type} (s : RetryState ε) : RetryState ε :=
  { s with abortRef := true, timeoutRef := false, isRetrying := false, delayMs := 0 }

/-- reset of the hook (part_005 lines 266-274): abort, then reset attempt,
isSuccess, isFailed, error, delayMs and the attempt ref.  Note it does not
clear the abort flag that abort just set. -/
def reset {ε : Type} (s : RetryState ε) : RetryState ε :=
  { abort s with attempt := 0, isSuccess := false, isFailed := false,
                 error := none, delayMs := 0, attemptRef := 0 }

/-- A configuration with the source defaults (maxAttempts 3, delays 1000
and 30000, multiplier 2, jitter 1/10) and total callbacks. -/
def cfgW : RetryConfig Nat Nat :=
  { maxAttempts := 3, initialDelayMs := 1000, maxDelayMs := 30000,
    backoffMultiplier := 2, jitter := 1/10,
    shouldRetry := fun _ _ => .ok true, onSuccess := fun _ => .ok (),
    onFailure := fun _ _ => .ok (), autoStart := false }

/-- A configuration with maxAttempts 5 whose shouldRetry always says no. -/
def cfgV : RetryConfig Nat Nat :=
  { maxAttempts := 5, initialDelayMs := 1000, maxDelayMs := 30000,
    backoffMultiplier := 2, jitter := 1/10,
    shouldRetry := fun _ _ => .ok false, onSuccess := fun _ => .ok (),
    onFailure := fun _ _ => .ok (), autoStart := false }

/-- A configuration with jitter 2, outside the documented [0,1] range. -/
def cfgJ : RetryConfig Nat Nat :=
  { maxAttempts := 3, initialDelayMs := 100, maxDelayMs := 30000,
    backoffMultiplier := 2, jitter := 2,
    shouldRetry := fun _ _ => .ok true, onSuccess := fun _ => .ok (),
    onFailure := fun _ _ => .ok (), autoStart := false }

/-- A configuration whose shouldRetry callback itself throws 11. -/
def cfgSRthrow : RetryConfig Nat Nat :=
  { maxAttempts := 3, initialDelayMs := 1000, maxDelayMs := 30000,
    backoffMultiplier := 2, jitter := 1/10,
    shouldRetry := fun _ _ => .error 11, onSuccess := fun _ => .ok (),
    onFailure := fun _ _ => .ok (), autoStart := false }

/-- A single-attempt configuration whose onFailure callback throws 13. -/
def cfgOFthrow : RetryConfig Nat Nat :=
  { maxAttempts := 1, initialDelayMs := 1000, maxDelayMs := 30000,
    backoffMultiplier := 2, jitter := 1/10,
    shouldRetry := fun _ _ => .ok true, onSuccess := fun _ => .ok (),
    onFailure := fun _ _ => .error 13, autoStart := false }

/-- A single-attempt configuration whose onSuccess callback throws 17. -/
def cfgOSthrow1 : RetryConfig Nat Nat :=
  { maxAttempts := 1, initialDelayMs := 1000, maxDelayMs := 30000,
    backoffMultiplier := 2, jitter := 1/10,
    shouldRetry := fun _ _ => .ok true, onSuccess := fun _ => .error 17,
    onFailure := fun _ _ => .ok (), autoStart := false }

/-- A configuration whose onSuccess throws 17 on result 42 only. -/
def cfgOSthrow2 : RetryConfig Nat Nat :=
  { maxAttempts := 3, initialDelayMs := 1000, maxDelayMs := 30000,
    backoffMultiplier := 2, jitter := 1/10,
    shouldRetry := fun _ _ => .ok true,
    onSuccess := fun t => if t = 42 then .error 17 else .ok (),
    onFailure := fun _ _ => .ok (), autoStart := false }

/-- The scheduler state at the end of a terminally failed three-attempt
sequence with last error 7. -/
def failedStateW : RetryState Nat :=
  { attempt := 3, isRetrying := false, isSuccess := false, isFailed := true,
    delayMs := 0, error := some 7, abortRef := false, timeoutRef := false,
    attemptRef := 3 }

/-- Helper: when every invocation fails, shouldRetry always allows a retry
and onFailure does not throw, the attempt loop started at attempt n with
k = maxAttempts - n runs each remaining attempt, ends terminally failed at
attempt maxAttempts, and fires onFailure once. -/
theorem runAttempt_allFail {ε T : Type} (cfg : RetryConfig ε T) (asyncFn : Nat → Except ε T)
    (random : Nat → ℚ) (errs : Nat → ε)
    (hop : ∀ i, asyncFn i = .error (errs i))
    (hsr : ∀ e n, cfg.shouldRetry e n = .ok true)
    (hof : ∀ e n, cfg.onFailure e n = .ok ())
    (k : Nat) :
    ∀ n, 1 ≤ n → n + k = cfg.maxAttempts →
    runAttempt cfg asyncFn random (fun _ => false) n
      { attempt := n, isRetrying := false, isSuccess := false, isFailed := false,
        delayMs := 0, error := none, abortRef := false, timeoutRef := false,
        attemptRef := n } =
      (.resolved none,
       { attempt := cfg.maxAttempts, isRetrying := false, isSuccess := false,
         isFailed := true, delayMs := 0, error := some (errs cfg.maxAttempts),
         abortRef := false, timeoutRef := false, attemptRef := cfg.maxAttempts },
       (List.range' n (k+1)).map Event.opCall ++
         [Event.onFailureCall (errs cfg.maxAttempts) cfg.maxAttempts]) := by
  induction k with
  | zero =>
    intro n hn hM
    rw [runAttempt]
    simp [hop, hof, show n ≥ cfg.maxAttempts by omega, show cfg.maxAttempts = n by omega]
  | succ k ih =>
    intro n hn hM
    rw [runAttempt]
    simp only [hop, hsr, show ¬ (n ≥ cfg.maxAttempts) by omega, dif_neg, not_false_iff,
      if_false, Bool.false_eq_true, if_true]
    simp only [List.range'_succ, List.map_cons]
    rw [ih (n+1) (by omega) (by omega)]
    simp [List.range'_succ]

/-- Helper: when shouldRetry, onSuccess and onFailure never throw and no
abort is issued, the attempt loop always produces a resolved promise, and
a null resolution comes with isFailed set, an error recorded and an
onFailure event. -/
theorem runAttempt_total_resolves {ε T : Type} (cfg : RetryConfig ε T)
    (asyncFn : Nat → Except ε T) (random : Nat → ℚ)
    (hsr : ∀ e n, ∃ b, cfg.shouldRetry e n = .ok b)
    (hsu : ∀ t, cfg.onSuccess t = .ok ())
    (hof : ∀ e n, cfg.onFailure e n = .ok ())
    (k : Nat) :
    ∀ n s, s.abortRef = false → cfg.maxAttempts ≤ n + k →
    ∃ v s1 evs,
      runAttempt cfg asyncFn random (fun _ => false) n s = (.resolved v, s1, evs) ∧
      (v = none → s1.isFailed = true ∧ s1.error.isSome ∧
        ∃ e m, Event.onFailureCall e m ∈ evs) := by
  induction k with
  | zero =>
    intro n s hs hk
    rw [runAttempt]
    rcases hfn : asyncFn n with e | t
    · have hge : n ≥ cfg.maxAttempts := by omega
      simp [hs, hfn, hof, hge]
      exact ⟨_, _, _, ⟨rfl, rfl, rfl⟩, fun _ => ⟨rfl, rfl, e, n, by simp⟩⟩
    · simp [hs, hfn, hsu]
      exact ⟨_, _, _, ⟨rfl, rfl, rfl⟩, fun hv => by simp at hv⟩
  | succ k ih =>
    intro n s hs hk
    rw [runAttempt]
    rcases hfn : asyncFn n with e | t
    · by_cases hge : n ≥ cfg.maxAttempts
      · simp [hs, hfn, hof, hge]
        exact ⟨_, _, _, ⟨rfl, rfl, rfl⟩, fun _ => ⟨rfl, rfl, e, n, by simp⟩⟩
      · obtain ⟨b, hb⟩ := hsr e n
        rcases b with _ | _
        · simp [hs, hfn, hb, hge, hof]
          exact ⟨_, _, _, ⟨rfl, rfl, rfl⟩, fun _ => ⟨rfl, rfl, e, n, by simp⟩⟩
        · simp only [hs, hfn, hb, hge, Bool.false_eq_true, if_false, dif_neg,
            not_false_iff, if_true, ite_true, ite_false]
          obtain ⟨v, s1, evs, heq, himp⟩ := ih (n+1)
            { attempt := n+1, isRetrying := false, isSuccess := s.isSuccess,
              isFailed := s.isFailed, delayMs := 0, error := s.error,
              abortRef := false, timeoutRef := false, attemptRef := n+1 }
            rfl (by omega)
          rw [heq]
          refine ⟨v, s1, Event.opCall n :: evs, by simp, fun hv => ?_⟩
          obtain ⟨h1, h2, e2, m2, h3⟩ := himp hv
          exact ⟨h1, h2, e2, m2, by simp [h3]⟩
    · simp [hs, hfn, hsu]
      exact ⟨_, _, _, ⟨rfl, rfl, rfl⟩, fun hv => by simp at hv⟩

/-- Claim C1: for every maxAttempts m with 1 ≤ m, if the operation fails on
every invocation and shouldRetry always returns true, execute() invokes the
operation exactly m times (events opCall 1 .. opCall m), ends with isFailed
true, attempt = m and the last error recorded, and fires onFailure exactly
once with that error and the attempt count m. -/
theorem execute_allFail_exhausts {ε T : Type} (cfg : RetryConfig ε T)
    (asyncFn : Nat → Except ε T) (random : Nat → ℚ) (errs : Nat → ε)
    (hop : ∀ i, asyncFn i = .error (errs i))
    (hsr : ∀ e n, cfg.shouldRetry e n = .ok true)
    (hof : ∀ e n, cfg.onFailure e n = .ok ())
    (hm : 1 ≤ cfg.maxAttempts) :
    execute cfg asyncFn random (fun _ => false) initState =
      (.resolved none,
       { attempt := cfg.maxAttempts, isRetrying := false, isSuccess := false,
         isFailed := true, delayMs := 0, error := some (errs cfg.maxAttempts),
         abortRef := false, timeoutRef := false, attemptRef := cfg.maxAttempts },
       (List.range' 1 cfg.maxAttempts).map Event.opCall ++
         [Event.onFailureCall (errs cfg.maxAttempts) cfg.maxAttempts]) := by
  have h := runAttempt_allFail cfg asyncFn random errs hop hsr hof
    (cfg.maxAttempts - 1) 1 le_rfl (by omega)
  have hM : cfg.maxAttempts - 1 + 1 = cfg.maxAttempts := by omega
  rw [hM] at h
  rw [execute, if_neg (by simp [initState])]
  exact h

/-- Witness for C1 at maxAttempts 3 and an operation that always fails
with 7. -/
theorem execute_allFail_exhausts_witness :
    execute cfgW (fun _ => .error 7) (fun _ => 0) (fun _ => false) initState =
      (.resolved none,
       { attempt := 3, isRetrying := false, isSuccess := false, isFailed := true,
         delayMs := 0, error := some 7, abortRef := false, timeoutRef := false,
         attemptRef := 3 },
       [.opCall 1, .opCall 2, .opCall 3, .onFailureCall 7 3]) :=
  execute_allFail_exhausts cfgW (fun _ => .error 7) (fun _ => 0) (fun _ => 7)
    (fun _ => rfl) (fun _ _ => rfl) (fun _ _ => rfl) (by decide)

/-- Claim C2 (the code diverges from it): when abort() is called while the
scheduler waits after the first failed attempt, the timer is cancelled
(timeoutRef false), isRetrying and delayMs are cleared and no further
attempt starts (a single opCall event) — but the promise returned by
execute() never settles (ExecResult.pending), because clearTimeout cancels
the timer without resolving the wait promise, so it does not resolve with
null as the claim states. -/
theorem execute_abortDuringWait_pending {ε T : Type} (cfg : RetryConfig ε T)
    (asyncFn : Nat → Except ε T) (random : Nat → ℚ) (e : ε)
    (hm : 2 ≤ cfg.maxAttempts)
    (h1 : asyncFn 1 = .error e)
    (hsr : cfg.shouldRetry e 1 = .ok true) :
    execute cfg asyncFn random (fun n => n == 1) initState =
      (.pending,
       { attempt := 1, isRetrying := false, isSuccess := false, isFailed := false,
         delayMs := 0, error := none, abortRef := true, timeoutRef := false,
         attemptRef := 1 },
       [.opCall 1]) := by
  rw [execute, if_neg (by simp [initState])]
  rw [runAttempt]
  simp [executeInit, initState, h1, hsr, show ¬ (1 ≥ cfg.maxAttempts) by omega]

/-- Witness for C2: maxAttempts 3, an operation failing with 7, abort
during the wait after attempt 1. -/
theorem execute_abortDuringWait_pending_witness :
    execute cfgW (fun _ => .error 7) (fun _ => 0) (fun n => n == 1) initState =
      (.pending,
       { attempt := 1, isRetrying := false, isSuccess := false, isFailed := false,
         delayMs := 0, error := none, abortRef := true, timeoutRef := false,
         attemptRef := 1 },
       [.opCall 1]) :=
  execute_abortDuringWait_pending cfgW (fun _ => .error 7) (fun _ => 0) 7
    (by decide) rfl rfl

/-- Claim C3 counterexample: the state of the scheduler while the first
attempt of a sequence is in flight (the Running phase) is executeInit
initState, whose isRetrying field is false, so a second execute() call in
that state passes the guard and is not a no-op: it invokes the operation
again (an opCall event) and mutates the state, contradicting the claim
that execute() during Running returns immediately with no effect. -/
theorem execute_whileRunning_not_noop :
    (executeInit (initState : RetryState Nat)).isRetrying = false ∧
    execute cfgW (fun _ => .ok 42) (fun _ => 0) (fun _ => false)
        (executeInit initState) =
      (.resolved (some 42),
       { attempt := 1, isRetrying := false, isSuccess := true, isFailed := false,
         delayMs := 0, error := none, abortRef := false, timeoutRef := false,
         attemptRef := 1 },
       [.opCall 1, .onSuccessCall 42]) := by
  refine ⟨rfl, ?_⟩
  rw [execute, if_neg (by simp [executeInit, initState])]
  rw [runAttempt]
  simp [executeInit, initState, cfgW]

/-- Claim C3 as amended: execute() is a no-op (resolves null immediately,
state unchanged, no events) exactly when isRetrying is true, which holds
only during the Waiting phase between attempts; the in-flight Running
phase is not covered by the guard. -/
theorem execute_noop_of_isRetrying {ε T : Type} (cfg : RetryConfig ε T)
    (asyncFn : Nat → Except ε T) (random : Nat → ℚ)
    (abortDuringWait : Nat → Bool) (s : RetryState ε) (h : s.isRetrying = true) :
    execute cfg asyncFn random abortDuringWait s = (.resolved none, s, []) := by
  rw [execute, if_pos h]

/-- Witness for the amended C3 at a state with isRetrying true. -/
theorem execute_noop_of_isRetrying_witness :
    execute cfgW (fun _ => .ok 0) (fun _ => 0) (fun _ => false)
        { initState with isRetrying := true } =
      (.resolved none, { initState with isRetrying := true }, []) :=
  execute_noop_of_isRetrying cfgW (fun _ => .ok 0) (fun _ => 0) (fun _ => false)
    { initState with isRetrying := true } rfl

/-- Claim C4 as amended: for jitter in [0,1] and a random draw in [0,1),
the computed delay is non-negative and lies within
[max(0, capped*(1-jitter)), capped*(1+jitter)] where capped is the backoff
base capped at maxDelayMs.  (The code never clamps, so for jitter above 1
the delay can be negative, refuting the original claim.) -/
theorem calculateDelay_bounds {ε T : Type} (cfg : RetryConfig ε T) (random : ℚ)
    (n : Nat) (_hn : 1 ≤ n) (hj0 : 0 ≤ cfg.jitter) (hj1 : cfg.jitter ≤ 1)
    (hr0 : 0 ≤ random) (hr1 : random < 1)
    (hi : 0 ≤ cfg.initialDelayMs) (hmx : 0 ≤ cfg.maxDelayMs)
    (hb : 0 ≤ cfg.backoffMultiplier) :
    0 ≤ calculateDelay cfg random n ∧
    max 0 (min (cfg.initialDelayMs * cfg.backoffMultiplier ^ (n - 1)) cfg.maxDelayMs
        * (1 - cfg.jitter)) ≤ calculateDelay cfg random n ∧
    calculateDelay cfg random n ≤
      min (cfg.initialDelayMs * cfg.backoffMultiplier ^ (n - 1)) cfg.maxDelayMs
        * (1 + cfg.jitter) := by
  have hc : 0 ≤ min (cfg.initialDelayMs * cfg.backoffMultiplier ^ (n - 1)) cfg.maxDelayMs :=
    le_min (mul_nonneg hi (pow_nonneg hb _)) hmx
  have hcj : 0 ≤ min (cfg.initialDelayMs * cfg.backoffMultiplier ^ (n - 1)) cfg.maxDelayMs
      * cfg.jitter := mul_nonneg hc hj0
  simp only [calculateDelay]
  set c := min (cfg.initialDelayMs * cfg.backoffMultiplier ^ (n - 1)) cfg.maxDelayMs with hcdef
  have hlow : c * (1 - cfg.jitter) ≤
      c - c * cfg.jitter + random * (c + c * cfg.jitter - (c - c * cfg.jitter)) := by
    nlinarith [mul_nonneg hr0 hcj]
  have h0 : (0 : ℚ) ≤
      c - c * cfg.jitter + random * (c + c * cfg.jitter - (c - c * cfg.jitter)) := by
    nlinarith [mul_nonneg hr0 hcj, mul_le_of_le_one_right hc hj1]
  refine ⟨h0, max_le h0 hlow, ?_⟩
  nlinarith [mul_le_of_le_one_left hcj hr1.le]

/-- Witness for the amended C4 at the default configuration, attempt 2 and
random draw 1/2. -/
theorem calculateDelay_bounds_witness :
    0 ≤ calculateDelay cfgW (1/2) 2 ∧
    max 0 (min (cfgW.initialDelayMs * cfgW.backoffMultiplier ^ (2 - 1)) cfgW.maxDelayMs
        * (1 - cfgW.jitter)) ≤ calculateDelay cfgW (1/2) 2 ∧
    calculateDelay cfgW (1/2) 2 ≤
      min (cfgW.initialDelayMs * cfgW.backoffMultiplier ^ (2 - 1)) cfgW.maxDelayMs
        * (1 + cfgW.jitter) :=
  calculateDelay_bounds cfgW (1/2) 2 (by norm_num) (by norm_num [cfgW])
    (by norm_num [cfgW]) (by norm_num) (by norm_num) (by norm_num [cfgW])
    (by norm_num [cfgW]) (by norm_num [cfgW])

/-- Claim C4 counterexample: with jitter 2 (claim quantifies over every
jitter ≥ 0), initialDelayMs 100 and random draw 0, the delay before
attempt 2 is -100, which is negative: the code does not clamp the lower
bound to 0 as the claim states. -/
theorem calculateDelay_negative_at_jitter_two :
    calculateDelay cfgJ 0 1 < 0 := by
  norm_num [calculateDelay, cfgJ]

/-- Claim C5: with non-throwing callbacks and no abort, every
operation-level error (synchronous throws and rejections are one and the
same error channel of asyncFn here) is swallowed: execute() always yields
a resolved promise, and a null resolution only arises with isFailed set,
the error recorded in state and an onFailure event fired — never as a
rejection of execute() itself. -/
theorem execute_never_rejects {ε T : Type} (cfg : RetryConfig ε T)
    (asyncFn : Nat → Except ε T) (random : Nat → ℚ)
    (hsr : ∀ e n, ∃ b, cfg.shouldRetry e n = .ok b)
    (hsu : ∀ t, cfg.onSuccess t = .ok ())
    (hof : ∀ e n, cfg.onFailure e n = .ok ()) :
    ∃ v s1 evs,
      execute cfg asyncFn random (fun _ => false) initState = (.resolved v, s1, evs) ∧
      (v = none → s1.isFailed = true ∧ s1.error.isSome ∧
        ∃ e m, Event.onFailureCall e m ∈ evs) := by
  rw [execute, if_neg (by simp [initState])]
  exact runAttempt_total_resolves cfg asyncFn random hsr hsu hof cfg.maxAttempts 1
    (executeInit initState) rfl (by omega)

/-- Witness for C5 at the default configuration and an operation that
always fails with 7. -/
theorem execute_never_rejects_witness :
    ∃ v s1 evs,
      execute cfgW (fun _ => .error 7) (fun _ => 0) (fun _ => false) initState =
        (.resolved v, s1, evs) ∧
      (v = none → s1.isFailed = true ∧ s1.error.isSome ∧
        ∃ e m, Event.onFailureCall e m ∈ evs) :=
  execute_never_rejects cfgW (fun _ => .error 7) (fun _ => 0)
    (fun _ _ => ⟨true, rfl⟩) (fun _ => rfl) (fun _ _ => rfl)

/-- Claim C6: with maxAttempts 3 and an operation failing on its first
invocation and succeeding on its second, execute() resolves with the
success value, the final state has isSuccess true and attempt 2, the
operation is invoked exactly twice and onSuccess fires exactly once with
the result, before the promise resolves (it is the last event of the
completed call). -/
theorem execute_failOnce_thenSucceeds {ε T : Type} (cfg : RetryConfig ε T)
    (asyncFn : Nat → Except ε T) (random : Nat → ℚ) (e : ε) (t : T)
    (hm : cfg.maxAttempts = 3)
    (h1 : asyncFn 1 = .error e) (h2 : asyncFn 2 = .ok t)
    (hsr : cfg.shouldRetry e 1 = .ok true)
    (hsu : cfg.onSuccess t = .ok ()) :
    execute cfg asyncFn random (fun _ => false) initState =
      (.resolved (some t),
       { attempt := 2, isRetrying := false, isSuccess := true, isFailed := false,
         delayMs := 0, error := none, abortRef := false, timeoutRef := false,
         attemptRef := 2 },
       [.opCall 1, .opCall 2, .onSuccessCall t]) := by
  rw [execute, if_neg (by simp [initState])]
  rw [runAttempt]
  simp only [executeInit, initState, h1, hsr, hm]
  rw [runAttempt]
  simp [h2, hsu]

/-- Witness for C6: fails with 5 on attempt 1, succeeds with 42 on
attempt 2. -/
theorem execute_failOnce_thenSucceeds_witness :
    execute cfgW (fun i => if i = 1 then .error 5 else .ok 42) (fun _ => 0)
        (fun _ => false) initState =
      (.resolved (some 42),
       { attempt := 2, isRetrying := false, isSuccess := true, isFailed := false,
         delayMs := 0, error := none, abortRef := false, timeoutRef := false,
         attemptRef := 2 },
       [.opCall 1, .opCall 2, .onSuccessCall 42]) :=
  execute_failOnce_thenSucceeds cfgW (fun i => if i = 1 then .error 5 else .ok 42)
    (fun _ => 0) 5 42 rfl rfl rfl rfl rfl

/-- Claim C7: with maxAttempts 5, if shouldRetry returns false on the first
failure, the sequence takes the terminal-failure path immediately: exactly
one invocation, isFailed true, error recorded, onFailure fired once with
attempt count 1. -/
theorem execute_disqualified_terminal {ε T : Type} (cfg : RetryConfig ε T)
    (asyncFn : Nat → Except ε T) (random : Nat → ℚ) (e : ε)
    (hm : cfg.maxAttempts = 5)
    (h1 : asyncFn 1 = .error e)
    (hsr : cfg.shouldRetry e 1 = .ok false)
    (hof : cfg.onFailure e 1 = .ok ()) :
    execute cfg asyncFn random (fun _ => false) initState =
      (.resolved none,
       { attempt := 1, isRetrying := false, isSuccess := false, isFailed := true,
         delayMs := 0, error := some e, abortRef := false, timeoutRef := false,
         attemptRef := 1 },
       [.opCall 1, .onFailureCall e 1]) := by
  rw [execute, if_neg (by simp [initState])]
  rw [runAttempt]
  simp [executeInit, initState, h1, hsr, hof, hm]

/-- Witness for C7 with maxAttempts 5 and an operation failing with 9. -/
theorem execute_disqualified_terminal_witness :
    execute cfgV (fun _ => .error 9) (fun _ => 0) (fun _ => false) initState =
      (.resolved none,
       { attempt := 1, isRetrying := false, isSuccess := false, isFailed := true,
         delayMs := 0, error := some 9, abortRef := false, timeoutRef := false,
         attemptRef := 1 },
       [.opCall 1, .onFailureCall 9 1]) :=
  execute_disqualified_terminal cfgV (fun _ => .error 9) (fun _ => 0) 9
    rfl rfl rfl rfl

/-- Claim C8 counterexample: reset does not clear the abort flag — it
leaves it set to true (reset calls abort, which sets it, and never resets
it), whereas the flag of a fresh scheduler is false, contradicting the
claim that reset() clears the abort flag. -/
theorem reset_abortRef_not_cleared :
    (reset failedStateW).abortRef = true ∧
    (initState : RetryState Nat).abortRef = false :=
  ⟨rfl, rfl⟩

/-- Claim C8 as amended: for every state, including a terminally failed
one, reset() restores attempt 0, isSuccess and isFailed false, error none,
delayMs 0 and cancels any pending timer, but sets the abort flag rather
than clearing it; since execute() clears that flag on entry, a subsequent
execute() still behaves exactly like a first call on a fresh scheduler. -/
theorem reset_restores_and_execute_fresh {ε T : Type} (s : RetryState ε) :
    reset s =
      { attempt := 0, isRetrying := false, isSuccess := false, isFailed := false,
        delayMs := 0, error := none, abortRef := true, timeoutRef := false,
        attemptRef := 0 } ∧
    ∀ (cfg : RetryConfig ε T) (asyncFn : Nat → Except ε T) (random : Nat → ℚ)
      (abortDuringWait : Nat → Bool),
      execute cfg asyncFn random abortDuringWait (reset s) =
        execute cfg asyncFn random abortDuringWait initState := by
  refine ⟨rfl, ?_⟩
  intro cfg asyncFn random abortDuringWait
  rw [execute, execute, if_neg (by simp [reset, abort]), if_neg (by simp [initState])]
  rfl

/-- Witness for the amended C8 at a failed state and the default
configuration. -/
theorem reset_restores_and_execute_fresh_witness :
    reset failedStateW =
      { attempt := 0, isRetrying := false, isSuccess := false, isFailed := false,
        delayMs := 0, error := none, abortRef := true, timeoutRef := false,
        attemptRef := 0 } ∧
    execute cfgW (fun _ => .error 7) (fun _ => 0) (fun _ => false) (reset failedStateW) =
      execute cfgW (fun _ => .error 7) (fun _ => 0) (fun _ => false) initState :=
  ⟨(reset_restores_and_execute_fresh (T := Nat) failedStateW).1,
   (reset_restores_and_execute_fresh failedStateW).2 cfgW (fun _ => .error 7)
     (fun _ => 0) (fun _ => false)⟩

/-- Claim C9: a throw from shouldRetry (first conjunct) or from onFailure
(second conjunct) after an operation failure is not caught by the attempt
loop: the promise returned by execute() rejects with the thrown value, so
the error-swallowing boundary covers only the wrapped operation. -/
theorem callback_throw_rejects {ε T : Type} :
    (∀ (cfg : RetryConfig ε T) (asyncFn : Nat → Except ε T) (random : Nat → ℚ)
       (e ex : ε), asyncFn 1 = .error e → 1 < cfg.maxAttempts →
       cfg.shouldRetry e 1 = .error ex →
       execute cfg asyncFn random (fun _ => false) initState =
         (.rejected ex, executeInit initState, [.opCall 1])) ∧
    (∀ (cfg : RetryConfig ε T) (asyncFn : Nat → Except ε T) (random : Nat → ℚ)
       (e ex : ε), asyncFn 1 = .error e → cfg.maxAttempts ≤ 1 →
       cfg.onFailure e 1 = .error ex →
       execute cfg asyncFn random (fun _ => false) initState =
         (.rejected ex,
          { attempt := 1, isRetrying := false, isSuccess := false, isFailed := true,
            delayMs := 0, error := some e, abortRef := false, timeoutRef := false,
            attemptRef := 1 },
          [.opCall 1, .onFailureCall e 1])) := by
  constructor
  · intro cfg asyncFn random e ex h1 hm hsr
    rw [execute, if_neg (by simp [initState])]
    rw [runAttempt]
    simp [executeInit, initState, h1, hsr, show ¬ (1 ≥ cfg.maxAttempts) by omega]
  · intro cfg asyncFn random e ex h1 hm hof
    rw [execute, if_neg (by simp [initState])]
    rw [runAttempt]
    simp [executeInit, initState, h1, hof, show 1 ≥ cfg.maxAttempts by omega]

/-- Witness for C9: shouldRetry throwing 11, and onFailure throwing 13. -/
theorem callback_throw_rejects_witness :
    execute cfgSRthrow (fun _ => .error 7) (fun _ => 0) (fun _ => false) initState =
      (.rejected 11, executeInit initState, [.opCall 1]) ∧
    execute cfgOFthrow (fun _ => .error 7) (fun _ => 0) (fun _ => false) initState =
      (.rejected 13,
       { attempt := 1, isRetrying := false, isSuccess := false, isFailed := true,
         delayMs := 0, error := some 7, abortRef := false, timeoutRef := false,
         attemptRef := 1 },
       [.opCall 1, .onFailureCall 7 1]) :=
  ⟨callback_throw_rejects.1 cfgSRthrow (fun _ => .error 7) (fun _ => 0) 7 11
     rfl (by decide) rfl,
   callback_throw_rejects.2 cfgOFthrow (fun _ => .error 7) (fun _ => 0) 7 13
     rfl (by decide) rfl⟩

/-- Claim C10: a throw from onSuccess lands in the catch block of the
attempt loop and is treated as a failed attempt, after isSuccess was
already set: with a single attempt the sequence ends with isSuccess and
isFailed both true and onFailure fired although the operation succeeded
(first conjunct); with attempts remaining and shouldRetry true the
sequence retries after the successful operation (second conjunct). -/
theorem onSuccess_throw_caught {ε T : Type} :
    (∀ (cfg : RetryConfig ε T) (asyncFn : Nat → Except ε T) (random : Nat → ℚ)
       (t : T) (e : ε), asyncFn 1 = .ok t → cfg.onSuccess t = .error e →
       cfg.maxAttempts ≤ 1 → cfg.onFailure e 1 = .ok () →
       execute cfg asyncFn random (fun _ => false) initState =
         (.resolved none,
          { attempt := 1, isRetrying := false, isSuccess := true, isFailed := true,
            delayMs := 0, error := some e, abortRef := false, timeoutRef := false,
            attemptRef := 1 },
          [.opCall 1, .onSuccessCall t, .onFailureCall e 1])) ∧
    (∀ (cfg : RetryConfig ε T) (asyncFn : Nat → Except ε T) (random : Nat → ℚ)
       (t t2 : T) (e : ε), asyncFn 1 = .ok t → cfg.onSuccess t = .error e →
       1 < cfg.maxAttempts → cfg.shouldRetry e 1 = .ok true →
       asyncFn 2 = .ok t2 → cfg.onSuccess t2 = .ok () →
       execute cfg asyncFn random (fun _ => false) initState =
         (.resolved (some t2),
          { attempt := 2, isRetrying := false, isSuccess := true, isFailed := false,
            delayMs := 0, error := none, abortRef := false, timeoutRef := false,
            attemptRef := 2 },
          [.opCall 1, .onSuccessCall t, .opCall 2, .onSuccessCall t2])) := by
  constructor
  · intro cfg asyncFn random t e h1 hsu hm hof
    rw [execute, if_neg (by simp [initState])]
    rw [runAttempt]
    simp [executeInit, initState, h1, hsu, hof, show 1 ≥ cfg.maxAttempts by omega]
  · intro cfg asyncFn random t t2 e h1 hsu hm hsr h2 hsu2
    rw [execute, if_neg (by simp [initState])]
    rw [runAttempt]
    simp only [executeInit, initState, h1, hsu, hsr,
      show ¬ (1 ≥ cfg.maxAttempts) by omega]
    rw [runAttempt]
    simp [h2, hsu2]

/-- Witness for C10: onSuccess throwing 17 with one attempt, and with a
retry that then succeeds with 43. -/
theorem onSuccess_throw_caught_witness :
    execute cfgOSthrow1 (fun _ => .ok 42) (fun _ => 0) (fun _ => false) initState =
      (.resolved none,
       { attempt := 1, isRetrying := false, isSuccess := true, isFailed := true,
         delayMs := 0, error := some 17, abortRef := false, timeoutRef := false,
         attemptRef := 1 },
       [.opCall 1, .onSuccessCall 42, .onFailureCall 17 1]) ∧
    execute cfgOSthrow2 (fun i => if i = 1 then .ok 42 else .ok 43) (fun _ => 0)
        (fun _ => false) initState =
      (.resolved (some 43),
       { attempt := 2, isRetrying := false, isSuccess := true, isFailed := false,
         delayMs := 0, error := none, abortRef := false, timeoutRef := false,
         attemptRef := 2 },
       [.opCall 1, .onSuccessCall 42, .opCall 2, .onSuccessCall 43]) :=
  ⟨onSuccess_throw_caught.1 cfgOSthrow1 (fun _ => .ok 42) (fun _ => 0) 42 17
     rfl rfl (by decide) rfl,
   onSuccess_throw_caught.2 cfgOSthrow2 (fun i => if i = 1 then .ok 42 else .ok 43)
     (fun _ => 0) 42 43 17 rfl rfl (by decide) rfl rfl rfl⟩
